import Mathlib

/-!
# Verification of the claude-bazaar headless execution and session runtime

Shallow embedding of the container-runtime core:
* `WorkspaceManager` (src/packages/container-runtime/src/ExecutionRegistry.ts,
  second document: writeFiles / cleanup),
* `ClaudeExecutor` (src/unnamed/part_011, second document: execute,
  executeStreaming, setupTimeout),
* `ExecutionRegistry` (src/packages/container-runtime/src/ExecutionRegistry.ts),
* `SessionManager` (src/packages/container-runtime/src/index.ts, third
  document: getOrCreate, get, delete, cleanupIdleSessions),
* `ExecutionService` (src/packages/container-runtime/src/ExecutionService.ts:
  executeStateless, executeStreaming).

Filesystem paths are modelled as lists of segments (the pieces between the
slashes of an absolute path); Node's `path.join(a, b)` concatenates and then
normalizes, which on segment lists is a left fold that drops `""` and `"."`
and lets `".."` pop the last segment (at the root it stays at the root, as
Node does for absolute paths).
-/

namespace Bazaar

/-- The `FileInput` from src/packages/container-runtime/src/types.ts, with the
caller-controlled `path` string already split on `/` into segments. -/
structure FileInput where
  path : List String
  content : String
deriving DecidableEq, Repr

/-- One normalization step of Node `path.normalize` on an absolute path:
empty and `"."` segments vanish, `".."` pops the previous segment
(no-op at the root), anything else is appended. -/
def normStep (stack : List String) (seg : String) : List String :=
  if seg = "" ∨ seg = "." then stack
  else if seg = ".." then stack.dropLast
  else stack ++ [seg]

/-- Node `path.join(base, rel)` for an absolute `base`: concatenate the
segments, then normalize. -/
def pathJoin (base rel : List String) : List String :=
  (base ++ rel).foldl normStep []

/-- Returns `true` when `p` lies at or below directory `root` (segment-wise). -/
def underDir : List String → List String → Bool
  | [], _ => true
  | _ :: _, [] => false
  | a :: as, b :: bs => a = b && underDir as bs

/-- The `WorkspaceManager.writeFiles` (ExecutionRegistry.ts source lines 102-108):
for each caller-supplied file it writes at `path.join(workspacePath, file.path)`
— there is no check on `file.path`. This function returns the list of resolved
absolute paths the writes land on, in order. -/
def writeFilesResolved (workspacePath : List String) (files : List FileInput) :
    List (List String) :=
  files.map (fun f => pathJoin workspacePath f.path)

/-! ## Agent process model (ClaudeExecutor, src/unnamed/part_011)

Node `ChildProcess` semantics relevant here:
* `subprocess.kill(signal)` sends the signal; if the send succeeds (the
  process has not already been reaped) Node sets `subprocess.killed := true`.
  `killed` records that a signal was successfully SENT, not that the process
  has exited.
* a process may install a handler that ignores SIGTERM; SIGKILL cannot be
  ignored. -/

/-- The two signals the runtime uses. -/
inductive Signal
  | sigterm
  | sigkill
deriving DecidableEq, Repr

/-- Observable state of a spawned agent process: whether the OS process is
still running, Node's `killed` flag, and the signals delivered so far. -/
structure Proc where
  alive : Bool
  killedFlag : Bool
  delivered : List Signal
deriving DecidableEq, Repr

/-- A freshly spawned process. -/
def Proc.spawned : Proc :=
  { alive := true, killedFlag := false, delivered := [] }

/-- The `ChildProcess.kill(sig)`: for a live process the signal is delivered and
`killed` is set; `ignoresTerm` says whether the agent ignores SIGTERM
(SIGKILL always terminates). Killing an already-exited process is a no-op. -/
def Proc.kill (p : Proc) (s : Signal) (ignoresTerm : Bool) : Proc :=
  if p.alive then
    let p' : Proc :=
      { alive := p.alive, killedFlag := true, delivered := p.delivered ++ [s] }
    match s with
    | Signal.sigkill => { p' with alive := false }
    | Signal.sigterm => if ignoresTerm then p' else { p' with alive := false }
  else p

/-- The `ClaudeExecutor.setupTimeout`, body of the outer timer (part_011 lines
311-319): at timeout expiry the process receives `SIGTERM` (the error
callback also fires; events are modelled separately). -/
def timeoutExpiry (p : Proc) (ignoresTerm : Bool) : Proc :=
  p.kill Signal.sigterm ignoresTerm

/-- The `ClaudeExecutor.setupTimeout`, body of the inner 5000 ms timer (part_011
lines 313-317): `if (!process.killed) process.kill('SIGKILL')`. -/
def graceTimerFire (p : Proc) (ignoresTerm : Bool) : Proc :=
  if !p.killedFlag then p.kill Signal.sigkill ignoresTerm else p

/-- The `ExecutionRegistry.cancel`, inner 2000 ms timer (ExecutionRegistry.ts
lines 43-47): same `if (!entry.process.killed) kill('SIGKILL')` guard. -/
def registryGraceFire (p : Proc) (ignoresTerm : Bool) : Proc :=
  if !p.killedFlag then p.kill Signal.sigkill ignoresTerm else p

/-! ## Streaming events (ClaudeExecutor.executeStreaming, part_011 217-277) -/

/-- Events the streaming emitter can carry to the caller. `eventEv` is a
parsed structured event (carrying its source line), `dataEv` a raw line,
and the remaining three are the terminal signals. -/
inductive StreamEv
  | eventEv (line : String)
  | dataEv (line : String)
  | endEv
  | errorEv (msg : String)
  | cancelledEv
deriving DecidableEq, Repr

/-- The generic nonzero-exit message (part_011 line 267), with the template
hole filled by the exit code. -/
def exitMsg (code : Int) : String :=
  "Claude Code exited with code " ++ toString code

/-- The timeout message (part_011 line 318). -/
def timeoutMsg (timeout : Nat) : String :=
  "Execution timed out after " ++ toString timeout ++ "ms"

/-- Returns `true` when the line is empty after `line.trim()` — i.e. every character
is whitespace. -/
def isBlank (line : String) : Bool :=
  line.toList.all Char.isWhitespace

/-- The readline `line` handler (part_011 lines 239-253): a blank line is
skipped (`if (!line.trim()) return`); otherwise, if `JSON.parse` succeeds
the handler emits an `event` then a raw `data` event, and if it fails it
emits only the raw `data` event. `parses` abstracts `JSON.parse` success. -/
def lineHandler (parses : String → Bool) (line : String) : List StreamEv :=
  if isBlank line then []
  else if parses line then [StreamEv.eventEv line, StreamEv.dataEv line]
  else [StreamEv.dataEv line]

/-- Events emitted for a whole sequence of stdout lines, in arrival order. -/
def processLines (parses : String → Bool) (lines : List String) : List StreamEv :=
  lines.flatMap (lineHandler parses)

/-- The raw lines carried by the `data` events of an event sequence. -/
def dataLines : List StreamEv → List String
  | [] => []
  | StreamEv.dataEv l :: rest => l :: dataLines rest
  | _ :: rest => dataLines rest

/-- The `close` handler of `executeStreaming` (part_011 lines 259-269):
`code === 0` → `end`; `code === null || proc.killed` → `cancelled`;
otherwise `error` with stderr or the generic exit message. -/
def closeEvent (code : Option Int) (killed : Bool) (stderr : String) : StreamEv :=
  if code = some 0 then StreamEv.endEv
  else if code = none || killed then StreamEv.cancelledEv
  else StreamEv.errorEv
    (if stderr = "" then exitMsg (code.getD 0) else stderr)

/-- The ways a streaming execution can reach its end, as seen from the
emitter wiring of part_011 and ExecutionRegistry.cancel. -/
inductive ExitCause
  | clean
  | fail (code : Int)
  | timeoutKill (timeout : Nat)
  | registryCancel
deriving DecidableEq, Repr

/-- All terminal-kind events that reach the caller's stream for one
execution, in emission order, assembled from the source wiring:
* `clean` / `fail c` (c ≠ 0, not killed): only the `close` handler fires.
* `timeoutKill`: the timer body (part_011 lines 311-319) sends SIGTERM and
  invokes the callback, which is `(err) => emitter.emit('error', err)`
  (line 228); the SIGTERM-killed process then closes with `code === null`,
  so the `close` handler adds `cancelled`.
* `registryCancel`: `ExecutionRegistry.cancel` emits `cancelled` on the
  registered emitter synchronously (ExecutionRegistry.ts lines 50-52), and
  the SIGTERM-killed process then closes with `code === null`, so the
  `close` handler emits a second `cancelled`. -/
def terminalEvents (stderr : String) : ExitCause → List StreamEv
  | ExitCause.clean => [closeEvent (some 0) false stderr]
  | ExitCause.fail c => [closeEvent (some c) false stderr]
  | ExitCause.timeoutKill t =>
      [StreamEv.errorEv (timeoutMsg t), closeEvent none true stderr]
  | ExitCause.registryCancel =>
      [StreamEv.cancelledEv, closeEvent none true stderr]

/-! ## Buffered execution (ClaudeExecutor.execute + ExecutionService) -/

/-- The `ExecuteResponse` from types.ts (the `executionTime` field is wall-clock
bookkeeping and is omitted). -/
structure ExecuteResponse where
  success : Bool
  output : String
  error : Option String
deriving DecidableEq, Repr

/-- The `close` handler of `ClaudeExecutor.execute` (part_011 lines 200-208):
exit code 0 resolves with the buffered stdout; a nonzero code rejects with
stderr, or the generic exit message when stderr is empty. -/
def executeResult (code : Int) (stdout stderr : String) : Except String String :=
  if code = 0 then Except.ok stdout
  else Except.error (if stderr = "" then exitMsg code else stderr)

/-- The `ExecutionService.executeStateless` result normalization (lines 85-110):
a resolved run becomes `{success:true, output}` and any thrown error is
caught and becomes `{success:false, output:"", error: message}` — no
exception propagates. -/
def statelessResponse (r : Except String String) : ExecuteResponse :=
  match r with
  | Except.ok out => { success := true, output := out, error := none }
  | Except.error msg => { success := false, output := "", error := some msg }

/-- The full buffered stateless pipeline for a run that spawned and exited
with `code`, producing `stdout`/`stderr`. -/
def bufferedResponse (code : Int) (stdout stderr : String) : ExecuteResponse :=
  statelessResponse (executeResult code stdout stderr)

/-! ## Association-list maps

JavaScript `Map` with string keys, embedded as an association list; a
`set` of an existing key overwrites, keys are unique in states reachable
through the operations below. -/

/-- The `Map.get`. -/
def lookupA {α : Type} : List (String × α) → String → Option α
  | [], _ => none
  | (k, v) :: rest, id => if k = id then some v else lookupA rest id

/-- The `Map.delete`. -/
def removeA {α : Type} : List (String × α) → String → List (String × α)
  | [], _ => []
  | (k, v) :: rest, id => if k = id then removeA rest id else (k, v) :: removeA rest id

/-- In-place mutation of the value object held under an existing key (the
source mutates the `Session` object the map already references). -/
def updateA {α : Type} : List (String × α) → String → α → List (String × α)
  | [], _, _ => []
  | (k, v) :: rest, id, v' =>
      if k = id then (k, v') :: rest else (k, v) :: updateA rest id v'

/-! ## Execution Registry (ExecutionRegistry.ts lines 11-75) -/

/-- A registry entry: the process handle and whether an emitter was
registered as notify target (`emitter?` is optional at `register`). -/
structure ExecEntry where
  hasEmitter : Bool
deriving DecidableEq, Repr

/-- The observable side effects of `ExecutionRegistry.cancel`. -/
inductive RegEffect
  | sigtermSent
  | forceKillScheduled
  | cancelledNotified
deriving DecidableEq, Repr

/-- The `ExecutionRegistry.cancel` (lines 33-56): unknown id → return `false`
with no state change and no effects; known id → send SIGTERM, schedule the
forced kill, emit `cancelled` on the registered emitter if present, delete
the entry immediately, return `true`. Result: (new registry, returned
boolean, effects in order). -/
def registryCancel (execs : List (String × ExecEntry)) (id : String) :
    List (String × ExecEntry) × Bool × List RegEffect :=
  match lookupA execs id with
  | none => (execs, false, [])
  | some e =>
      (removeA execs id, true,
        [RegEffect.sigtermSent, RegEffect.forceKillScheduled] ++
          (if e.hasEmitter then [RegEffect.cancelledNotified] else []))

/-! ## Workspace lifecycle per request (ExecutionService.ts) -/

/-- Ways a buffered stateless request can go (lines 79-116). -/
inductive BufferedOutcome
  | createFails
  | writeFails
  | spawnFails
  | exits (code : Int)
  | timesOut
deriving DecidableEq, Repr

/-- The pair (`workspaceManager.create` calls that succeeded, `cleanup` calls) for one
buffered stateless request. `executeStateless` creates in the `try`, and the
`finally` cleans up exactly when `workspacePath` is non-null — i.e. on every
outcome except a failed `create`. -/
def statelessLifecycle : BufferedOutcome → Nat × Nat
  | BufferedOutcome.createFails => (0, 0)
  | BufferedOutcome.writeFails => (1, 1)
  | BufferedOutcome.spawnFails => (1, 1)
  | BufferedOutcome.exits _ => (1, 1)
  | BufferedOutcome.timesOut => (1, 1)

/-- Terminal-kind events fired on the EXECUTOR's handle emitter (the inner
emitter of part_011, to which ExecutionService attaches its cleanup
handlers at lines 150-169). Unlike `terminalEvents`, the registry's own
synchronous `cancelled` is absent: `ExecutionRegistry.cancel` emits on the
OUTER service emitter (registered at line 145), not on the handle. -/
def handleTerminalEvents (stderr : String) : ExitCause → List StreamEv
  | ExitCause.clean => [closeEvent (some 0) false stderr]
  | ExitCause.fail c => [closeEvent (some c) false stderr]
  | ExitCause.timeoutKill t =>
      [StreamEv.errorEv (timeoutMsg t), closeEvent none true stderr]
  | ExitCause.registryCancel => [closeEvent none true stderr]

/-- Ways a streaming stateless request can go (lines 128-181). -/
inductive StreamScenario
  | createFails
  | writeFails
  | runs (c : ExitCause)
deriving DecidableEq, Repr

/-- The pair (`create` calls that succeeded, `cleanup` calls) for one streaming
stateless request: the `catch` cleans up when `workspacePath` is non-null
(lines 173-176), and each of the `end`/`error`/`cancelled` handlers on the
handle emitter invokes `cleanup` once per firing (lines 150-169). -/
def streamingLifecycle (stderr : String) : StreamScenario → Nat × Nat
  | StreamScenario.createFails => (0, 0)
  | StreamScenario.writeFails => (1, 1)
  | StreamScenario.runs c => (1, (handleTerminalEvents stderr c).length)

/-! ## Session Manager (src/packages/container-runtime/src/index.ts, third
document, lines 98-299)

Workspace paths are represented by the `Nat` drawn from a fresh-id counter
(`workspaceManager.create` generates a unique directory name); timestamps
(`Date.now()`) are `Nat` parameters supplied to each operation. -/

/-- The `Session` (index.ts lines 98-104). -/
structure Session where
  id : String
  workspacePath : Nat
  conversationId : Option String
  lastActivity : Nat
  apiKey : Option String
deriving DecidableEq, Repr

/-- SessionManager state: the session map plus the workspace-store ledger
(`created` / `destroyed` record each successful `create` / `cleanup`). -/
structure SMState where
  sessions : List (String × Session)
  nextWorkspace : Nat
  created : List Nat
  destroyed : List Nat
deriving DecidableEq, Repr

/-- The manager of a freshly started server: no sessions, no workspaces. -/
def SMState.empty : SMState :=
  { sessions := [], nextWorkspace := 0, created := [], destroyed := [] }

/-- The `workspaceManager.create()`: allocates a fresh workspace id. -/
def wmCreate (st : SMState) : SMState × Nat :=
  ({ st with
      nextWorkspace := st.nextWorkspace + 1,
      created := st.created ++ [st.nextWorkspace] }, st.nextWorkspace)

/-- The `SessionManager.getOrCreate` run to completion without interleaving
(lines 128-169): look up the id; if absent, create a workspace and insert a
fresh session; then `if (apiKey) session.apiKey = apiKey`, write any files
into `session.workspacePath` (mutates no session field), and set
`session.lastActivity = Date.now()`. -/
def getOrCreate (st : SMState) (sessionId : String) (apiKey : Option String)
    (now : Nat) : SMState × Session :=
  match lookupA st.sessions sessionId with
  | none =>
      let p := wmCreate st
      let s : Session :=
        { id := sessionId, workspacePath := p.2, conversationId := none,
          lastActivity := now, apiKey := apiKey }
      ({ p.1 with sessions := (sessionId, s) :: p.1.sessions }, s)
  | some s =>
      let s' : Session :=
        { s with
            apiKey := match apiKey with | some k => some k | none => s.apiKey,
            lastActivity := now }
      ({ st with sessions := updateA st.sessions sessionId s' }, s')

/-- The `SessionManager.get` (lines 246-252): refreshes `lastActivity` on hit. -/
def smGet (st : SMState) (sessionId : String) (now : Nat) :
    SMState × Option Session :=
  match lookupA st.sessions sessionId with
  | none => (st, none)
  | some s =>
      let s' : Session := { s with lastActivity := now }
      ({ st with sessions := updateA st.sessions sessionId s' }, some s')

/-- The `SessionManager.delete` (lines 254-260): on a known id, destroy its
workspace and remove the map entry; otherwise a no-op. -/
def smDelete (st : SMState) (sessionId : String) : SMState :=
  match lookupA st.sessions sessionId with
  | none => st
  | some s =>
      { st with
          sessions := removeA st.sessions sessionId,
          destroyed := st.destroyed ++ [s.workspacePath] }

/-- The `idleTimeoutMs` of `DEFAULT_CONFIG` (line 112): 30 minutes. -/
def idleTimeoutMs : Nat := 30 * 60 * 1000

/-- The `cleanupIntervalMs` of `DEFAULT_CONFIG` (line 113): 60 seconds. -/
def cleanupIntervalMs : Nat := 60 * 1000

/-- The `SessionManager.cleanupIdleSessions` (lines 269-283): collect the ids
with `now - session.lastActivity > idleTimeoutMs`, then delete each. -/
def cleanupIdleSessions (st : SMState) (now : Nat) : SMState :=
  let toDelete :=
    (st.sessions.filter
      (fun p => idleTimeoutMs < now - p.2.lastActivity)).map Prod.fst
  toDelete.foldl smDelete st

/-! ## The getOrCreate race (C10)

`getOrCreate` suspends at `await this.workspaceManager.create()` (line 140)
between the map lookup (line 135) and the map insert (line 150). Two
concurrent calls for the same unseen id interleave at that point. Each call
is a task stepped through its phases by a scheduler. -/

/-- Progress of one in-flight `getOrCreate` call. -/
inductive GOCPhase
  | notStarted
  | createdWs (w : Nat)
  | finished (w : Nat)
deriving DecidableEq, Repr

/-- One scheduler step of a `getOrCreate(sessionId)` task:
* from `notStarted`: run the map lookup; on a hit finish at once with the
  existing session's workspace (refreshing it), on a miss perform the
  workspace creation and SUSPEND (the `await` at line 140);
* from `createdWs w`: resume after the `await` — build the session record
  and insert it into the map (line 150), finishing with `w`. -/
def stepTask (st : SMState) (ph : GOCPhase) (sessionId : String) (now : Nat) :
    SMState × GOCPhase :=
  match ph with
  | GOCPhase.notStarted =>
      match lookupA st.sessions sessionId with
      | some s =>
          let s' : Session := { s with lastActivity := now }
          ({ st with sessions := updateA st.sessions sessionId s' },
           GOCPhase.finished s.workspacePath)
      | none =>
          let p := wmCreate st
          (p.1, GOCPhase.createdWs p.2)
  | GOCPhase.createdWs w =>
      let s : Session :=
        { id := sessionId, workspacePath := w, conversationId := none,
          lastActivity := now, apiKey := none }
      ({ st with sessions := (sessionId, s) :: st.sessions },
       GOCPhase.finished w)
  | GOCPhase.finished w => (st, GOCPhase.finished w)

/-- Two concurrent tasks A and B over the shared manager state. -/
structure RaceState where
  sm : SMState
  taskA : GOCPhase
  taskB : GOCPhase
deriving DecidableEq, Repr

/-- Which task the event loop resumes next. -/
inductive TaskId
  | A
  | B
deriving DecidableEq, Repr

/-- Run a schedule (a list of resumption choices) for two concurrent
`getOrCreate(sessionId)` calls. -/
def runSched (sessionId : String) (now : Nat) :
    List TaskId → RaceState → RaceState
  | [], rs => rs
  | TaskId.A :: rest, rs =>
      let p := stepTask rs.sm rs.taskA sessionId now
      runSched sessionId now rest { rs with sm := p.1, taskA := p.2 }
  | TaskId.B :: rest, rs =>
      let p := stepTask rs.sm rs.taskB sessionId now
      runSched sessionId now rest { rs with sm := p.1, taskB := p.2 }

/-- A concrete session used as a test fixture: live since time 5. -/
def sampleSession : Session :=
  { id := "s", workspacePath := 0, conversationId := none,
    lastActivity := 5, apiKey := none }

/-- A concrete one-session manager state used as a test fixture. -/
def sampleState : SMState :=
  { sessions := [("s", sampleSession)], nextWorkspace := 1,
    created := [0], destroyed := [] }

/-! ## Association-list lemmas -/

theorem lookupA_removeA_self {α : Type} (l : List (String × α)) (id : String) :
    lookupA (removeA l id) id = none := by
  induction l with
  | nil => rfl
  | cons hd tl ih =>
      obtain ⟨k, v⟩ := hd
      by_cases h : k = id <;> simp [removeA, lookupA, h, ih]

theorem lookupA_removeA_other {α : Type} (l : List (String × α)) (a id : String)
    (h : a ≠ id) : lookupA (removeA l a) id = lookupA l id := by
  induction l with
  | nil => rfl
  | cons hd tl ih =>
      obtain ⟨k, v⟩ := hd
      by_cases hk : k = a
      · subst hk
        simp [removeA, lookupA, h, ih]
      · have h' : id ≠ a := fun he => h he.symm
        by_cases hk' : k = id <;> simp [removeA, lookupA, hk, hk', h', ih]

theorem lookupA_updateA_self {α : Type} (l : List (String × α)) (id : String)
    (v' : α) (s : α) (h : lookupA l id = some s) :
    lookupA (updateA l id v') id = some v' := by
  induction l with
  | nil => simp [lookupA] at h
  | cons hd tl ih =>
      obtain ⟨k, v⟩ := hd
      by_cases hk : k = id
      · simp [updateA, lookupA, hk]
      · simp [updateA, lookupA, hk] at h ⊢
        exact ih h

theorem lookupA_mem {α : Type} (l : List (String × α)) (id : String) (v : α)
    (h : lookupA l id = some v) : (id, v) ∈ l := by
  induction l with
  | nil => simp [lookupA] at h
  | cons hd tl ih =>
      obtain ⟨k, w⟩ := hd
      by_cases hk : k = id
      · subst hk
        simp [lookupA] at h
        simp [h]
      · simp [lookupA, hk] at h
        exact List.mem_cons_of_mem _ (ih h)

theorem mem_lookupA_nodup {α : Type} (l : List (String × α)) (id : String)
    (v : α) (hn : (l.map Prod.fst).Nodup) (h : (id, v) ∈ l) :
    lookupA l id = some v := by
  induction l with
  | nil => simp at h
  | cons hd tl ih =>
      obtain ⟨k, w⟩ := hd
      simp only [List.map_cons, List.nodup_cons] at hn
      rcases List.mem_cons.mp h with h1 | h1
      · obtain ⟨hk, hv⟩ := Prod.mk.injEq .. ▸ h1
        simp [lookupA, hk.symm, hv]
      · have hk : k ≠ id := by
          intro hk
          subst hk
          exact hn.1 (List.mem_map.mpr ⟨(k, v), h1, rfl⟩)
        simp [lookupA, hk]
        exact ih hn.2 h1

/-! ## Sweep lemmas -/

theorem smDelete_lookup (st : SMState) (a id : String) :
    lookupA (smDelete st a).sessions id =
      if a = id then none else lookupA st.sessions id := by
  unfold smDelete
  cases h : lookupA st.sessions a with
  | none =>
      by_cases hid : a = id
      · subst hid
        simp [h]
      · simp [hid]
  | some s =>
      by_cases hid : a = id
      · subst hid
        simp [lookupA_removeA_self]
      · simp [hid, lookupA_removeA_other _ _ _ hid]

theorem smDelete_destroyed_mono (st : SMState) (a : String) (d : Nat)
    (h : d ∈ st.destroyed) : d ∈ (smDelete st a).destroyed := by
  unfold smDelete
  cases lookupA st.sessions a <;> simp [h]

theorem foldl_smDelete_lookup (L : List String) (st : SMState) (id : String) :
    lookupA (L.foldl smDelete st).sessions id =
      if id ∈ L then none else lookupA st.sessions id := by
  induction L generalizing st with
  | nil => simp
  | cons a L' ih =>
      by_cases hid : id = a
      · subst hid
        simp only [List.foldl_cons, ih, smDelete_lookup, List.mem_cons]
        by_cases hm : id ∈ L' <;> simp [hm]
      · have := smDelete_lookup st a id
        simp only [List.foldl_cons, ih, this, List.mem_cons]
        have hne : ¬ a = id := fun he => hid he.symm
        by_cases hm : id ∈ L' <;> simp [hm, hid, hne]

theorem foldl_smDelete_destroyed_mono (L : List String) (st : SMState) (d : Nat)
    (h : d ∈ st.destroyed) : d ∈ (L.foldl smDelete st).destroyed := by
  induction L generalizing st with
  | nil => simpa using h
  | cons a L' ih => exact ih _ (smDelete_destroyed_mono st a d h)

theorem foldl_smDelete_destroys (L : List String) (st : SMState) (id : String)
    (s : Session) (hmem : id ∈ L) (h : lookupA st.sessions id = some s) :
    s.workspacePath ∈ (L.foldl smDelete st).destroyed := by
  induction L generalizing st with
  | nil => simp at hmem
  | cons a L' ih =>
      by_cases hid : a = id
      · subst hid
        have hdel : s.workspacePath ∈ (smDelete st a).destroyed := by
          unfold smDelete
          simp [h]
        exact foldl_smDelete_destroyed_mono L' _ _ hdel
      · have hlook : lookupA (smDelete st a).sessions id = some s := by
          rw [smDelete_lookup]
          simp [hid, h]
        have hmem' : id ∈ L' := by
          rcases List.mem_cons.mp hmem with h1 | h1
          · exact absurd h1.symm hid
          · exact h1
        exact ih _ hmem' hlook

/-! ## Claims -/

/-- C1: the claim says every file entry whose path escapes the workspace
root is rejected or neutralized. `WorkspaceManager.writeFiles` instead
resolves each caller path with a bare `path.join` and writes there: for the
workspace `/tmp/bazaar/workspace-1` the entry path `../../etc/passwd`
resolves to `/tmp/etc/passwd`, which is not under the workspace root — the
write lands outside the workspace. -/
theorem writeFiles_path_escapes :
    writeFilesResolved ["tmp", "bazaar", "workspace-1"]
        [{ path := ["..", "..", "etc", "passwd"], content := "x" }] =
      [["tmp", "etc", "passwd"]] ∧
    underDir ["tmp", "bazaar", "workspace-1"] ["tmp", "etc", "passwd"] = false := by
  decide

/-- C2: the claim says a forceful SIGKILL follows when the process has not
exited a grace window after SIGTERM. Both `setupTimeout` and
`ExecutionRegistry.cancel` guard the forced kill with `!process.killed`,
but Node sets `killed` the moment the SIGTERM was successfully SENT, so for
an agent that ignores SIGTERM and stays alive the guard is already false
when the grace timer fires: the grace timer is a no-op, SIGKILL is never
delivered, and the process survives both escalation paths. -/
theorem forced_kill_never_sent :
    (timeoutExpiry Proc.spawned true).alive = true ∧
    graceTimerFire (timeoutExpiry Proc.spawned true) true =
      timeoutExpiry Proc.spawned true ∧
    Signal.sigkill ∉ (graceTimerFire (timeoutExpiry Proc.spawned true) true).delivered ∧
    (graceTimerFire (timeoutExpiry Proc.spawned true) true).alive = true ∧
    registryGraceFire (Proc.spawned.kill Signal.sigterm true) true =
      Proc.spawned.kill Signal.sigterm true ∧
    (registryGraceFire (Proc.spawned.kill Signal.sigterm true) true).alive = true := by
  decide

/-- C3 (counterexample): the claim says a timeout-killed execution yields
exactly one terminal signal, `cancelled`, and never `error`. On a timeout
the stream receives TWO terminal-kind events, the first of which is an
`error` carrying the timeout message (the expiry callback), followed by
`cancelled` from the close handler. -/
theorem streaming_timeout_emits_error :
    terminalEvents "" (ExitCause.timeoutKill 50) =
      [StreamEv.errorEv (timeoutMsg 50), StreamEv.cancelledEv] ∧
    ¬ (terminalEvents "" (ExitCause.timeoutKill 50)).length = 1 := by
  decide

/-- C3 (amended): a clean exit yields exactly one `end`; any nonzero exit of
a process that was not killed yields exactly one `error` (stderr or the
generic message); but a timeout yields an `error` with the timeout message
at expiry followed by `cancelled` at process close, and an explicit registry
cancellation yields `cancelled` twice (once synchronously from the registry,
once from the close handler) — the close-handler classification matches the
claim, while the stream is not limited to a single terminal signal. -/
theorem streaming_terminal_events_spec (stderr : String) (c : Int) (t : Nat)
    (hc : c ≠ 0) :
    terminalEvents stderr ExitCause.clean = [StreamEv.endEv] ∧
    terminalEvents stderr (ExitCause.fail c) =
      [StreamEv.errorEv (if stderr = "" then exitMsg c else stderr)] ∧
    terminalEvents stderr (ExitCause.timeoutKill t) =
      [StreamEv.errorEv (timeoutMsg t), StreamEv.cancelledEv] ∧
    terminalEvents stderr ExitCause.registryCancel =
      [StreamEv.cancelledEv, StreamEv.cancelledEv] := by
  refine ⟨?_, ?_, ?_, ?_⟩ <;> simp [terminalEvents, closeEvent, hc]

/-- Witness for `streaming_terminal_events_spec` at exit code 1 and
stderr `boom`. -/
theorem streaming_terminal_events_spec_witness :
    (1 : Int) ≠ 0 ∧
    terminalEvents "boom" (ExitCause.fail 1) = [StreamEv.errorEv "boom"] :=
  ⟨by decide, ((streaming_terminal_events_spec "boom" 1 50 (by decide)).2.1)⟩

/-- C4 (counterexample): the claim says exactly one workspace destroy per
stateless request, with no double-destroy. For a streaming request whose
process is killed by the timeout, the service's `error` handler (fired at
expiry) and its `cancelled` handler (fired at close) each invoke
`workspaceManager.cleanup` — one create, two destroy calls. -/
theorem streaming_timeout_double_cleanup :
    streamingLifecycle "" (StreamScenario.runs (ExitCause.timeoutKill 50)) = (1, 2) ∧
    ¬ (streamingLifecycle "" (StreamScenario.runs (ExitCause.timeoutKill 50))).2 = 1 := by
  decide

/-- C4 (amended): for every stateless request in which workspace creation
succeeds, exactly one workspace is created, and cleanup is invoked at least
once on every outcome; on the buffered path cleanup runs exactly once, and
on the streaming path exactly once — except a timeout, where it runs twice
(cleanup is idempotent best-effort, so the second call is a no-op on the
filesystem, but the double-destroy call does occur). -/
theorem workspace_lifecycle_spec (stderr : String) (o : BufferedOutcome)
    (sc : StreamScenario)
    (ho : o ≠ BufferedOutcome.createFails)
    (hsc : sc ≠ StreamScenario.createFails) :
    statelessLifecycle o = (1, 1) ∧
    (streamingLifecycle stderr sc).1 = 1 ∧
    1 ≤ (streamingLifecycle stderr sc).2 ∧
    ((streamingLifecycle stderr sc).2 = 2 ↔
      ∃ t, sc = StreamScenario.runs (ExitCause.timeoutKill t)) := by
  refine ⟨?_, ?_, ?_, ?_⟩
  · cases o <;> first | rfl | exact absurd rfl ho
  · cases sc with
    | createFails => exact absurd rfl hsc
    | writeFails => rfl
    | runs c => cases c <;> rfl
  · cases sc with
    | createFails => exact absurd rfl hsc
    | writeFails => exact Nat.le_refl 1
    | runs c => cases c <;> simp [streamingLifecycle, handleTerminalEvents]
  · cases sc with
    | createFails => exact absurd rfl hsc
    | writeFails => simp [streamingLifecycle]
    | runs c => cases c <;> simp [streamingLifecycle, handleTerminalEvents]

/-- Witness for `workspace_lifecycle_spec`: buffered nonzero exit and a
streaming clean end. -/
theorem workspace_lifecycle_spec_witness :
    BufferedOutcome.exits 1 ≠ BufferedOutcome.createFails ∧
    StreamScenario.runs ExitCause.clean ≠ StreamScenario.createFails ∧
    statelessLifecycle (BufferedOutcome.exits 1) = (1, 1) ∧
    streamingLifecycle "" (StreamScenario.runs ExitCause.clean) = (1, 1) :=
  ⟨by decide, by decide,
    (workspace_lifecycle_spec "" (BufferedOutcome.exits 1)
      (StreamScenario.runs ExitCause.clean) (by decide) (by decide)).1,
    by decide⟩

/-- C5: for a buffered stateless execution, exit code 0 produces
`success := true` with the full stdout, and a nonzero exit produces
`success := false` with stderr as the error — or the generic exit-code
message when stderr is empty — always a uniform response value, never a
propagated exception (the `catch` in `executeStateless` normalizes every
rejection). -/
theorem buffered_response_spec (code : Int) (stdout stderr : String) :
    (code = 0 → bufferedResponse code stdout stderr =
      { success := true, output := stdout, error := none }) ∧
    (code ≠ 0 → bufferedResponse code stdout stderr =
      { success := false, output := "",
        error := some (if stderr = "" then exitMsg code else stderr) }) := by
  constructor
  · intro h
    simp [bufferedResponse, executeResult, statelessResponse, h]
  · intro h
    simp [bufferedResponse, executeResult, statelessResponse, h]

/-- Witness for `buffered_response_spec`: the spec's example scenario —
exit 0 with stdout `hi`, and exit 1 with stderr `boom`. -/
theorem buffered_response_spec_witness :
    bufferedResponse 0 "hi" "" =
      { success := true, output := "hi", error := none } ∧
    bufferedResponse 1 "" "boom" =
      { success := false, output := "", error := some "boom" } :=
  ⟨(buffered_response_spec 0 "hi" "").1 rfl,
   (buffered_response_spec 1 "" "boom").2 (by decide)⟩

/-- C6 (counterexample): the claim says no line of agent output is silently
lost — a line that fails to parse is still forwarded as a raw event. A
whitespace-only line fails to parse as JSON, yet the handler returns before
the parse (`if (!line.trim()) return`), so the line produces no event at
all. -/
theorem blank_line_dropped :
    lineHandler (fun _ => false) " " = [] ∧
    processLines (fun _ => false) [" "] = [] := by
  constructor
  · rfl
  · rfl

/-- C6 (amended): events are delivered in exactly the agent's line order,
and every NON-BLANK line that fails to parse is forwarded as a raw event —
but whitespace-only lines are skipped outright: the raw lines carried to
the caller are precisely the non-blank input lines, in order. -/
theorem stream_lines_forwarded (parses : String → Bool) (lines : List String) :
    dataLines (processLines parses lines) =
      lines.filter (fun l => !isBlank l) := by
  induction lines with
  | nil => rfl
  | cons l ls ih =>
      have happ : ∀ a b : List StreamEv,
          dataLines (a ++ b) = dataLines a ++ dataLines b := by
        intro a b
        induction a with
        | nil => rfl
        | cons e es ihe => cases e <;> simp [dataLines, ihe]
      by_cases hb : isBlank l
      · simp [processLines, lineHandler, hb, happ, dataLines] at ih ⊢
        exact ih
      · by_cases hp : parses l = true <;>
          simp [processLines, lineHandler, hb, hp, happ, dataLines] at ih ⊢ <;>
          exact ih

/-- C7: cancelling an unknown or already-removed execution id returns
`false` with no state change and no effects; cancelling a registered id
sends SIGTERM, schedules the forced kill, synchronously notifies the
registered emitter when one exists, removes the entry immediately, and
returns `true` — so a second cancel of the same id returns `false` and is
a no-op. -/
theorem registry_cancel_spec (execs : List (String × ExecEntry)) (id : String) :
    (lookupA execs id = none → registryCancel execs id = (execs, false, [])) ∧
    (∀ e, lookupA execs id = some e →
      (registryCancel execs id).2.1 = true ∧
      lookupA (registryCancel execs id).1 id = none ∧
      RegEffect.sigtermSent ∈ (registryCancel execs id).2.2 ∧
      RegEffect.forceKillScheduled ∈ (registryCancel execs id).2.2 ∧
      (e.hasEmitter = true →
        RegEffect.cancelledNotified ∈ (registryCancel execs id).2.2) ∧
      registryCancel (registryCancel execs id).1 id =
        ((registryCancel execs id).1, false, [])) := by
  constructor
  · intro h
    simp [registryCancel, h]
  · intro e he
    have h1 : registryCancel execs id =
        (removeA execs id, true,
          [RegEffect.sigtermSent, RegEffect.forceKillScheduled] ++
            (if e.hasEmitter then [RegEffect.cancelledNotified] else [])) := by
      simp [registryCancel, he]
    have h2 : lookupA (removeA execs id) id = (none : Option ExecEntry) :=
      lookupA_removeA_self execs id
    refine ⟨by rw [h1], by rw [h1]; exact h2, by rw [h1]; simp,
      by rw [h1]; simp, ?_, by rw [h1]; simp [registryCancel, h2]⟩
    intro hemit
    rw [h1]
    simp [hemit]

/-- Witness for `registry_cancel_spec`: a registry holding `e1`; cancelling
the unknown `e2` is a no-op returning `false`, cancelling `e1` returns
`true`. -/
theorem registry_cancel_spec_witness :
    lookupA ([("e1", { hasEmitter := true })] : List (String × ExecEntry))
      "e2" = none ∧
    registryCancel [("e1", ({ hasEmitter := true } : ExecEntry))] "e2" =
      ([("e1", { hasEmitter := true })], false, []) ∧
    (registryCancel [("e1", ({ hasEmitter := true } : ExecEntry))] "e1").2.1 =
      true :=
  ⟨by decide,
   (registry_cancel_spec [("e1", { hasEmitter := true })] "e2").1 (by decide),
   ((registry_cancel_spec [("e1", { hasEmitter := true })] "e1").2
      { hasEmitter := true } (by decide)).1⟩

/-- C8: on a live session, `getOrCreate` returns the session with its
existing workspace — it creates no workspace and substitutes none — and the
map still holds the returned session; `lastActivity` does not decrease
under either `getOrCreate` or `get`, given the supplied clock value is not
in the session's past. -/
theorem session_invariants (st : SMState) (sessionId : String) (s : Session)
    (apiKey : Option String) (now : Nat)
    (hs : lookupA st.sessions sessionId = some s)
    (hn : s.lastActivity ≤ now) :
    ((getOrCreate st sessionId apiKey now).2.workspacePath = s.workspacePath ∧
     (getOrCreate st sessionId apiKey now).1.created = st.created ∧
     (getOrCreate st sessionId apiKey now).1.nextWorkspace = st.nextWorkspace ∧
     lookupA (getOrCreate st sessionId apiKey now).1.sessions sessionId =
       some (getOrCreate st sessionId apiKey now).2 ∧
     s.lastActivity ≤ (getOrCreate st sessionId apiKey now).2.lastActivity) ∧
    (∃ s', (smGet st sessionId now).2 = some s' ∧
      s'.workspacePath = s.workspacePath ∧
      s.lastActivity ≤ s'.lastActivity ∧
      lookupA (smGet st sessionId now).1.sessions sessionId = some s') := by
  constructor
  · simp only [getOrCreate, hs]
    refine ⟨trivial, trivial, trivial, ?_, ?_⟩
    · exact lookupA_updateA_self _ _ _ _ hs
    · exact hn
  · refine ⟨{ s with lastActivity := now }, ?_, rfl, hn, ?_⟩
    · simp [smGet, hs]
    · simp only [smGet, hs]
      exact lookupA_updateA_self _ _ _ _ hs

/-- Witness for `session_invariants` on the fixture state at time 7. -/
theorem session_invariants_witness :
    lookupA sampleState.sessions "s" = some sampleSession ∧
    sampleSession.lastActivity ≤ 7 ∧
    (getOrCreate sampleState "s" none 7).2.workspacePath =
      sampleSession.workspacePath ∧
    (getOrCreate sampleState "s" none 7).1.created = sampleState.created :=
  ⟨by decide, by decide,
   ((session_invariants sampleState "s" sampleSession none 7
      (by decide) (by decide)).1).1,
   ((session_invariants sampleState "s" sampleSession none 7
      (by decide) (by decide)).1).2.1⟩

/-- C9: at a sweep, a session strictly older than the idle threshold is
deleted — absent from the map afterwards, its workspace recorded as
destroyed — while a session whose idle age is within the threshold survives
untouched. -/
theorem idle_sweep_spec (st : SMState) (now : Nat) (sessionId : String)
    (s : Session)
    (hkeys : (st.sessions.map Prod.fst).Nodup)
    (hs : lookupA st.sessions sessionId = some s) :
    (idleTimeoutMs < now - s.lastActivity →
      lookupA (cleanupIdleSessions st now).sessions sessionId = none ∧
      s.workspacePath ∈ (cleanupIdleSessions st now).destroyed) ∧
    (now - s.lastActivity ≤ idleTimeoutMs →
      lookupA (cleanupIdleSessions st now).sessions sessionId = some s) := by
  have hmem := lookupA_mem _ _ _ hs
  constructor
  · intro hidle
    have hmemDel : sessionId ∈ (st.sessions.filter
        (fun p => idleTimeoutMs < now - p.2.lastActivity)).map Prod.fst :=
      List.mem_map.mpr ⟨(sessionId, s),
        List.mem_filter.mpr ⟨hmem, by simpa using hidle⟩, rfl⟩
    constructor
    · simp only [cleanupIdleSessions, foldl_smDelete_lookup, hmemDel, if_pos]
    · simp only [cleanupIdleSessions]
      exact foldl_smDelete_destroys _ _ _ _ hmemDel hs
  · intro hfresh
    have hnotmem : sessionId ∉ (st.sessions.filter
        (fun p => idleTimeoutMs < now - p.2.lastActivity)).map Prod.fst := by
      intro hmem'
      rcases List.mem_map.mp hmem' with ⟨⟨k, v⟩, hin, hk⟩
      rcases List.mem_filter.mp hin with ⟨hin', hcond⟩
      have hk' : k = sessionId := hk
      subst hk'
      have hlook := mem_lookupA_nodup _ _ _ hkeys hin'
      rw [hs] at hlook
      injection hlook with hv
      rw [hv] at hfresh
      simp at hcond
      omega
    simp only [cleanupIdleSessions, foldl_smDelete_lookup, hnotmem, if_neg,
      not_false_iff, hs]

/-- Witness for `idle_sweep_spec`: the fixture session, last active at 5, is
swept at time 2000000 (idle for well over 30 minutes) and its entry is
gone. -/
theorem idle_sweep_spec_witness :
    (sampleState.sessions.map Prod.fst).Nodup ∧
    lookupA sampleState.sessions "s" = some sampleSession ∧
    idleTimeoutMs < 2000000 - sampleSession.lastActivity ∧
    lookupA (cleanupIdleSessions sampleState 2000000).sessions "s" = none :=
  ⟨by decide, by decide, by decide,
   ((idle_sweep_spec sampleState 2000000 "s" sampleSession
      (by decide) (by decide)).1 (by decide)).1⟩

/-- C10: the claim says the lookup-or-create step is atomic, so two
concurrent first requests for one unseen session id never create two
workspaces. `getOrCreate` suspends at `await workspaceManager.create()`
between the map lookup and the map insert: under the schedule
A-lookup, B-lookup, A-insert, B-insert both tasks miss the lookup, both
create a workspace (ids 0 and 1), B's insert shadows A's, and workspace 0
is left created, unreachable from the session map, and never destroyed. -/
theorem getOrCreate_race_two_workspaces :
    (runSched "s" 0 [TaskId.A, TaskId.B, TaskId.A, TaskId.B]
      { sm := SMState.empty, taskA := GOCPhase.notStarted,
        taskB := GOCPhase.notStarted }).sm.created = [0, 1] ∧
    (runSched "s" 0 [TaskId.A, TaskId.B, TaskId.A, TaskId.B]
      { sm := SMState.empty, taskA := GOCPhase.notStarted,
        taskB := GOCPhase.notStarted }).taskA = GOCPhase.finished 0 ∧
    (runSched "s" 0 [TaskId.A, TaskId.B, TaskId.A, TaskId.B]
      { sm := SMState.empty, taskA := GOCPhase.notStarted,
        taskB := GOCPhase.notStarted }).taskB = GOCPhase.finished 1 ∧
    lookupA (runSched "s" 0 [TaskId.A, TaskId.B, TaskId.A, TaskId.B]
      { sm := SMState.empty, taskA := GOCPhase.notStarted,
        taskB := GOCPhase.notStarted }).sm.sessions "s" =
      some { id := "s", workspacePath := 1, conversationId := none,
             lastActivity := 0, apiKey := none } ∧
    (runSched "s" 0 [TaskId.A, TaskId.B, TaskId.A, TaskId.B]
      { sm := SMState.empty, taskA := GOCPhase.notStarted,
        taskB := GOCPhase.notStarted }).sm.destroyed = [] := by
  decide

end Bazaar
